import Mathlib

/-!
Shallow embedding of the NFT schema-detection-and-dispatch layer of
`src/packages/sdk/src/nft/nft.service.ts` (class `NftService`) together with
`getWallet` from `src/packages/sdk/src/common/utils.ts`.

External collaborators (schema registry, transaction preparer, signer /
broadcaster, wallet-from-key derivation) are modelled as oracle functions
passed in a `Collaborators` record.  Exceptions become `Except` values, the
process-wide `NftService.cache` becomes explicit state threaded through each
operation, and each operation additionally reports which collaborator calls it
made (registry queries, prepare calls, send calls) so that ordering and frame
properties can be stated.
-/

set_option maxHeartbeats 1000000

/-- Modelled from the spec: the `NftType` enumeration of `src/nft/types.ts`
(that file is not among the sources).  Spec §3 fixes exactly three schema
values, and `nft.service.ts` uses the members `ERC721`, `ERC1155`, `UNKNOWN`. -/
inductive NftType
  | ERC721
  | ERC1155
  | UNKNOWN
deriving DecidableEq, Repr

/-- The two typechain contract factories used in `nft.service.ts`
(`LiqERC721__factory`, `LiqERC1155__factory`). -/
inductive ContractKind
  | liqERC721
  | liqERC1155
deriving DecidableEq, Repr

/-- A contract handle as produced by
`factory.connect(AddressZero, getChainProvider(chainID)).attach(contractAddress)`:
the factory kind, the attached address and the chain id of the provider it is
bound to. -/
structure Contract where
  kind : ContractKind
  address : String
  providerChainId : Nat
deriving DecidableEq, Repr

/-- `NftInfo` from `src/nft/types.ts` as used by `NftService`: the cached
contract handle and its detected schema. -/
structure NftInfo where
  contract : Contract
  schema : NftType
deriving DecidableEq, Repr

/-- The process-wide `NftService.cache : Record<string, NftInfo>`, keyed by
contract address. -/
abbrev Cache : Type := List (String × NftInfo)

/-- Lookup in the cache, mirroring `NftService.cache[contractAddress]`
(an `NftInfo` object is always truthy, so presence coincides with truthiness). -/
def cacheLookup (cache : Cache) (addr : String) : Option NftInfo :=
  match cache with
  | [] => none
  | (a, info) :: rest => if a = addr then some info else cacheLookup rest addr

/-- Assignment `NftService.cache[contractAddress] = info` (overwrite on an
existing key, append otherwise). -/
def cacheInsert (cache : Cache) (addr : String) (info : NftInfo) : Cache :=
  match cache with
  | [] => [(addr, info)]
  | (a, i) :: rest =>
    if a = addr then (addr, info) :: rest else (a, i) :: cacheInsert rest addr info

/-- The errors thrown by `NftService` itself (`throw new Error(...)`), plus the
JavaScript `TypeError` raised by indexing into an `undefined` `amounts`
(`amounts![0]` with `amounts` absent). -/
inductive NftError
  | invalidTransferShape (tokenIDs : List Nat)
  | unsupportedSchema (schema : NftType)
  | notAnNftContract (address : String)
  | typeErrorUndefinedIndex
deriving DecidableEq, Repr

/-- `tokenIDs.join()` in JavaScript: decimal renderings joined by commas. -/
def joinIds (tokenIDs : List Nat) : String :=
  String.intercalate "," (tokenIDs.map toString)

/-- String interpolation of an `NftType` value. -/
def NftType.interp : NftType → String
  | .ERC721 => "ERC721"
  | .ERC1155 => "ERC1155"
  | .UNKNOWN => "UNKNOWN"

/-- The message of each error, following the template literals in the source. -/
def NftError.message : NftError → String
  | .invalidTransferShape tokenIDs =>
    "ERC 721 transfer supports exactly 1 tokenID, received " ++ joinIds tokenIDs
  | .unsupportedSchema schema => "Unsupported NFT type: " ++ schema.interp
  | .notAnNftContract address => address ++ " is not an NFT contract"
  | .typeErrorUndefinedIndex => "Cannot read properties of undefined (reading 0)"

/-- The contract call populated by the transfer / mint paths.  Arguments that
JavaScript may leave `undefined` (an out-of-range `tokenIDs[0]` / `amounts[0]`,
or a missing `amounts` array forwarded through `amounts!`) are `Option`s. -/
inductive CallShape
  | safeTransferFrom721 (owner receiver : String) (tokenId : Option Nat)
  | safeTransferFrom1155 (owner receiver : String) (tokenId : Option Nat)
      (amount : Option Nat) (data : String)
  | safeBatchTransferFrom (owner receiver : String) (tokenIDs : List Nat)
      (amounts : Option (List Nat)) (data : String)
  | mint1155 (recipient : String) (id : Nat) (amount : Nat) (data : String)
  | safeMint (recipient : String) (uri : String)
deriving DecidableEq, Repr

/-- The result of `contract.populateTransaction.<fn>(...)`: target address and
encoded call. -/
structure PopulatedTransaction where
  toAddr : String
  call : CallShape
deriving DecidableEq, Repr

/-- The object `{ ...tx, from: owner, chainId }` handed to
`TransactionService.prepareTransaction`. -/
structure TxRequest where
  tx : PopulatedTransaction
  fromAddr : String
  chainId : Nat
deriving DecidableEq, Repr

/-- A fee/nonce-filled transaction as returned by the preparer. -/
structure PreparedTx where
  base : TxRequest
  nonce : Nat
  gasPrice : Nat
deriving DecidableEq, Repr

/-- A signer handle: only its address is observable in this layer. -/
structure Wallet where
  address : String
deriving DecidableEq, Repr

/-- The `pkOrSigner : string | JsonRpcSigner` argument. -/
inductive PkOrSigner
  | pk (key : String)
  | signer (s : Wallet)
deriving DecidableEq, Repr

/-- `getWallet` from `src/common/utils.ts`: a raw private key yields a wallet
bound to the chain provider (its address determined by the key, via the
`addrOfKey` oracle); an existing signer is returned as is. -/
def getWallet (pkOrSigner : PkOrSigner) (chainID : Nat)
    (addrOfKey : String → String) : Wallet :=
  match pkOrSigner with
  | .pk key => { address := addrOfKey key }
  | .signer s => s

/-- The external collaborators, as deterministic oracles:
`NftProvider.getNftType`, key-to-address derivation for `getWallet`,
`TransactionService.prepareTransaction` and `wallet.sendTransaction`
(the latter two may fail, carrying a cause string). -/
structure Collaborators where
  getNftType : String → Nat → NftType
  addrOfKey : String → String
  prepareTransaction : TxRequest → Nat → Except String PreparedTx
  sendTransaction : Wallet → PreparedTx → Except String String

/-- Failures surfaced by an operation: either an error thrown by the service
itself (`throw new Error(...)`), or a collaborator rejection rethrown
unchanged — the source performs no wrapping or tagging, so a propagated error
carries only the value the collaborator failed with, not which stage threw
it. -/
inductive OpError
  | nft (e : NftError)
  | propagated (cause : String)
deriving DecidableEq, Repr

/-- The observable outcome of one operation: its return value or error, the
cache state afterwards, the registry queries / prepare calls / send calls it
made (in order), and the populated transaction it built, if it got that far. -/
structure OpOutcome where
  result : Except OpError String
  cache : Cache
  registryCalls : List (String × Nat)
  prepareCalls : List TxRequest
  sendCalls : List PreparedTx
  builtTx : Option PopulatedTransaction
deriving Repr

/-- The `NftInfo` object built on a cache miss:
`{ contract: contractFactory.connect(AddressZero, getChainProvider(chainID)).attach(contractAddress), schema: nftType }`
with `contractFactory = nftType == NftType.ERC1155 ? LiqERC1155__factory : LiqERC721__factory`. -/
def detectedInfo (contractAddress : String) (chainID : Nat) (nftType : NftType) :
    NftInfo :=
  { contract :=
      { kind :=
          if nftType = NftType.ERC1155 then ContractKind.liqERC1155
          else ContractKind.liqERC721
        address := contractAddress
        providerChainId := chainID }
    schema := nftType }

/-- `NftService.cacheGet`: return the cached entry when present; otherwise
query the schema registry, and on a non-`UNKNOWN` answer build and store a
fresh binding; on `UNKNOWN`, throw.  Also reports the registry queries
performed and the resulting cache. -/
def cacheGet (cache : Cache) (contractAddress : String) (chainID : Nat)
    (getNftType : String → Nat → NftType) :
    Except NftError NftInfo × Cache × List (String × Nat) :=
  match cacheLookup cache contractAddress with
  | some info => (.ok info, cache, [])
  | none =>
    let nftType := getNftType contractAddress chainID
    if nftType ≠ NftType.UNKNOWN then
      let info := detectedInfo contractAddress chainID nftType
      (.ok info, cacheInsert cache contractAddress info, [(contractAddress, chainID)])
    else
      (.error (.notAnNftContract contractAddress), cache, [(contractAddress, chainID)])

/-- `transferRequest` as destructured by `transferNft`. -/
structure TransferRequest where
  contractAddress : String
  receiver : String
  tokenIDs : List Nat
  amounts : Option (List Nat)
deriving DecidableEq, Repr

/-- The `switch (schema)` of `transferNft`: builds the populated transaction on
the resolved contract, or throws.  `data = "0x"`.  In the ERC1155 single-token
branch, `amounts![0]` with `amounts` absent raises a JavaScript `TypeError`;
out-of-range element reads evaluate to `undefined` (`none`) and are forwarded. -/
def buildTransferTx (contract : Contract) (schema : NftType) (tokenIDs : List Nat)
    (amounts : Option (List Nat)) (owner receiver : String) :
    Except NftError PopulatedTransaction :=
  let data := "0x"
  match schema with
  | NftType.ERC721 =>
    if tokenIDs.length ≠ 1 then
      .error (.invalidTransferShape tokenIDs)
    else
      .ok { toAddr := contract.address
            call := .safeTransferFrom721 owner receiver (tokenIDs.get? 0) }
  | NftType.ERC1155 =>
    if tokenIDs.length > 1 then
      .ok { toAddr := contract.address
            call := .safeBatchTransferFrom owner receiver tokenIDs amounts data }
    else
      match amounts with
      | none => .error .typeErrorUndefinedIndex
      | some amts =>
        .ok { toAddr := contract.address
              call := .safeTransferFrom1155 owner receiver (tokenIDs.get? 0)
                        (amts.get? 0) data }
  | schema => .error (.unsupportedSchema schema)

/-- The tail shared verbatim by `transferNft`, `mintERC1155Token` and
`mintERC721Token` (lines 99-112, 179-192 and 226-239 of the source): hand
`{ ...tx, from: owner, chainId }` to `TransactionService.prepareTransaction`,
then `wallet.sendTransaction(preparedTx)`, returning the hash; a rejection of
either collaborator propagates unchanged (no `catch`, no wrapping). -/
def prepareAndSend (cache' : Cache) (queries : List (String × Nat)) (wallet : Wallet)
    (tx : PopulatedTransaction) (chainId : Nat) (C : Collaborators) : OpOutcome :=
  let txReq : TxRequest := { tx := tx, fromAddr := wallet.address, chainId := chainId }
  match C.prepareTransaction txReq chainId with
  | .error cause =>
    { result := .error (.propagated cause), cache := cache'
      registryCalls := queries, prepareCalls := [txReq], sendCalls := []
      builtTx := some tx }
  | .ok preparedTx =>
    match C.sendTransaction wallet preparedTx with
    | .error cause =>
      { result := .error (.propagated cause), cache := cache'
        registryCalls := queries, prepareCalls := [txReq]
        sendCalls := [preparedTx], builtTx := some tx }
    | .ok hash =>
      { result := .ok hash, cache := cache', registryCalls := queries
        prepareCalls := [txReq], sendCalls := [preparedTx], builtTx := some tx }

/-- `NftService.transferNft`: resolve the binding through the cache, resolve
the signer, dispatch on the schema to build the call, attach
`from = owner, chainId`, prepare, then sign-and-send, returning the hash.  Any
failure short-circuits; later collaborator calls are then never made. -/
def transferNft (cache : Cache) (transferRequest : TransferRequest) (chainId : Nat)
    (pkOrSigner : PkOrSigner) (C : Collaborators) : OpOutcome :=
  match cacheGet cache transferRequest.contractAddress chainId C.getNftType with
  | (.error e, cache', queries) =>
    { result := .error (.nft e), cache := cache', registryCalls := queries
      prepareCalls := [], sendCalls := [], builtTx := none }
  | (.ok info, cache', queries) =>
    let wallet := getWallet pkOrSigner chainId C.addrOfKey
    let owner := wallet.address
    match buildTransferTx info.contract info.schema transferRequest.tokenIDs
        transferRequest.amounts owner transferRequest.receiver with
    | .error e =>
      { result := .error (.nft e), cache := cache', registryCalls := queries
        prepareCalls := [], sendCalls := [], builtTx := none }
    | .ok tx => prepareAndSend cache' queries wallet tx chainId C

/-- `MintERC721Request` from `src/nft/types.ts` as destructured by
`mintERC721Token`. -/
structure MintERC721Request where
  contractAddress : String
  recipient : String
  uri : String
deriving DecidableEq, Repr

/-- `MintERC1155Request` from `src/nft/types.ts` as destructured by
`mintERC1155Token`. -/
structure MintERC1155Request where
  contractAddress : String
  recipient : String
  id : Nat
  amount : Nat
deriving DecidableEq, Repr

/-- `NftService.mintERC721Token`: builds a fresh `LiqERC721` binding against
the target address (no cache involvement), populates `safeMint(recipient, uri)`,
prepares and sends.  The untouched cache is threaded through unchanged. -/
def mintERC721Token (cache : Cache) (req : MintERC721Request) (chainId : Nat)
    (pkOrSigner : PkOrSigner) (C : Collaborators) : OpOutcome :=
  let contract : Contract :=
    { kind := .liqERC721, address := req.contractAddress, providerChainId := chainId }
  let wallet := getWallet pkOrSigner chainId C.addrOfKey
  let owner := wallet.address
  let tx : PopulatedTransaction :=
    { toAddr := contract.address, call := .safeMint req.recipient req.uri }
  prepareAndSend cache [] wallet tx chainId C

/-- `NftService.mintERC1155Token`: builds a fresh `LiqERC1155` binding against
the target address (no cache involvement), populates
`mint(recipient, id, amount, "0x")`, prepares and sends. -/
def mintERC1155Token (cache : Cache) (req : MintERC1155Request) (chainId : Nat)
    (pkOrSigner : PkOrSigner) (C : Collaborators) : OpOutcome :=
  let contract : Contract :=
    { kind := .liqERC1155, address := req.contractAddress, providerChainId := chainId }
  let wallet := getWallet pkOrSigner chainId C.addrOfKey
  let owner := wallet.address
  let data := "0x"
  let tx : PopulatedTransaction :=
    { toAddr := contract.address, call := .mint1155 req.recipient req.id req.amount data }
  prepareAndSend cache [] wallet tx chainId C

/-- A transfer-shaped call: one of the three `safeTransferFrom` variants built
by the transfer dispatch. -/
def isTransferShape : CallShape → Bool
  | .safeTransferFrom721 .. => true
  | .safeTransferFrom1155 .. => true
  | .safeBatchTransferFrom .. => true
  | _ => false

/-- Well-formedness of the cache: every stored binding has a known schema. -/
def cacheWF (cache : Cache) : Prop :=
  ∀ p ∈ cache, (p : String × NftInfo).2.schema ≠ NftType.UNKNOWN

theorem cacheLookup_cacheInsert_self (c : Cache) (a : String) (v : NftInfo) :
    cacheLookup (cacheInsert c a v) a = some v := by
  induction c with
  | nil => simp [cacheInsert, cacheLookup]
  | cons p rest ih =>
    obtain ⟨b, w⟩ := p
    by_cases hb : b = a
    · simp [cacheInsert, hb, cacheLookup]
    · simp [cacheInsert, hb, cacheLookup, ih]

theorem mem_cacheInsert (c : Cache) (a : String) (v : NftInfo) (p : String × NftInfo)
    (hp : p ∈ cacheInsert c a v) : p = (a, v) ∨ p ∈ c := by
  induction c with
  | nil =>
    simp only [cacheInsert] at hp
    exact Or.inl (List.mem_singleton.mp hp)
  | cons q rest ih =>
    obtain ⟨b, w⟩ := q
    simp only [cacheInsert] at hp
    by_cases hb : b = a
    · rw [if_pos hb] at hp
      rcases List.mem_cons.mp hp with h | h
      · exact Or.inl h
      · exact Or.inr (List.mem_cons_of_mem _ h)
    · rw [if_neg hb] at hp
      rcases List.mem_cons.mp hp with h | h
      · exact Or.inr (by rw [h]; exact List.mem_cons_self _ _)
      · rcases ih h with h2 | h2
        · exact Or.inl h2
        · exact Or.inr (List.mem_cons_of_mem _ h2)

theorem cacheLookup_mem (c : Cache) (a : String) (v : NftInfo)
    (h : cacheLookup c a = some v) : (a, v) ∈ c := by
  induction c with
  | nil => simp [cacheLookup] at h
  | cons q rest ih =>
    obtain ⟨b, w⟩ := q
    simp only [cacheLookup] at h
    by_cases hb : b = a
    · subst hb
      rw [if_pos rfl] at h
      obtain rfl := Option.some.inj h
      exact List.mem_cons_self _ _
    · rw [if_neg hb] at h
      exact List.mem_cons_of_mem _ (ih h)

theorem prepareAndSend_builtTx (c : Cache) (q : List (String × Nat)) (w : Wallet)
    (tx : PopulatedTransaction) (i : Nat) (C : Collaborators) :
    (prepareAndSend c q w tx i C).builtTx = some tx := by
  unfold prepareAndSend
  dsimp only
  split
  · rfl
  · split <;> rfl

theorem prepareAndSend_cache (c : Cache) (q : List (String × Nat)) (w : Wallet)
    (tx : PopulatedTransaction) (i : Nat) (C : Collaborators) :
    (prepareAndSend c q w tx i C).cache = c := by
  unfold prepareAndSend
  dsimp only
  split
  · rfl
  · split <;> rfl

theorem prepareAndSend_registryCalls (c : Cache) (q : List (String × Nat)) (w : Wallet)
    (tx : PopulatedTransaction) (i : Nat) (C : Collaborators) :
    (prepareAndSend c q w tx i C).registryCalls = q := by
  unfold prepareAndSend
  dsimp only
  split
  · rfl
  · split <;> rfl

theorem prepareAndSend_result_not_nft (c : Cache) (q : List (String × Nat)) (w : Wallet)
    (tx : PopulatedTransaction) (i : Nat) (C : Collaborators) (e : NftError) :
    (prepareAndSend c q w tx i C).result ≠ .error (.nft e) := by
  unfold prepareAndSend
  dsimp only
  split
  · simp
  · split <;> simp

theorem cacheGet_hit (cache : Cache) (a : String) (i : Nat)
    (r : String → Nat → NftType) (info : NftInfo)
    (h : cacheLookup cache a = some info) :
    cacheGet cache a i r = (.ok info, cache, []) := by
  unfold cacheGet
  rw [h]

theorem cacheGet_miss_known (cache : Cache) (a : String) (i : Nat)
    (r : String → Nat → NftType) (hm : cacheLookup cache a = none)
    (hk : r a i ≠ NftType.UNKNOWN) :
    cacheGet cache a i r =
      (.ok (detectedInfo a i (r a i)),
       cacheInsert cache a (detectedInfo a i (r a i)), [(a, i)]) := by
  unfold cacheGet
  rw [hm]
  dsimp only
  rw [if_pos hk]

theorem cacheGet_miss_unknown (cache : Cache) (a : String) (i : Nat)
    (r : String → Nat → NftType) (hm : cacheLookup cache a = none)
    (hu : r a i = NftType.UNKNOWN) :
    cacheGet cache a i r = (.error (.notAnNftContract a), cache, [(a, i)]) := by
  unfold cacheGet
  rw [hm]
  dsimp only
  rw [if_neg (by simp [hu])]

theorem cacheGet_error_shape (cache c' : Cache) (a : String) (i : Nat)
    (r : String → Nat → NftType) (e : NftError) (q : List (String × Nat))
    (h : cacheGet cache a i r = (.error e, c', q)) :
    e = .notAnNftContract a ∧ c' = cache := by
  rcases hcase : cacheLookup cache a with _ | v
  · by_cases ht : r a i = NftType.UNKNOWN
    · rw [cacheGet_miss_unknown cache a i r hcase ht] at h
      simp only [Prod.mk.injEq, Except.error.injEq] at h
      exact ⟨h.1.symm, h.2.1.symm⟩
    · rw [cacheGet_miss_known cache a i r hcase ht] at h
      simp at h
  · rw [cacheGet_hit cache a i r v hcase] at h
    simp at h

theorem cacheGet_ok_lookup (cache c' : Cache) (a : String) (i : Nat)
    (r : String → Nat → NftType) (info : NftInfo) (q : List (String × Nat))
    (h : cacheGet cache a i r = (.ok info, c', q)) :
    cacheLookup c' a = some info := by
  rcases hcase : cacheLookup cache a with _ | v
  · by_cases ht : r a i = NftType.UNKNOWN
    · rw [cacheGet_miss_unknown cache a i r hcase ht] at h
      simp at h
    · rw [cacheGet_miss_known cache a i r hcase ht] at h
      simp only [Prod.mk.injEq, Except.ok.injEq] at h
      rw [← h.2.1, ← h.1]
      exact cacheLookup_cacheInsert_self cache a _
  · rw [cacheGet_hit cache a i r v hcase] at h
    simp only [Prod.mk.injEq, Except.ok.injEq] at h
    rw [← h.2.1, ← h.1]
    exact hcase

theorem cacheGet_ok_schema (cache c' : Cache) (a : String) (i : Nat)
    (r : String → Nat → NftType) (info : NftInfo) (q : List (String × Nat))
    (hwf : cacheWF cache)
    (h : cacheGet cache a i r = (.ok info, c', q)) :
    info.schema ≠ NftType.UNKNOWN := by
  rcases hcase : cacheLookup cache a with _ | v
  · by_cases ht : r a i = NftType.UNKNOWN
    · rw [cacheGet_miss_unknown cache a i r hcase ht] at h
      simp at h
    · rw [cacheGet_miss_known cache a i r hcase ht] at h
      simp only [Prod.mk.injEq, Except.ok.injEq] at h
      rw [← h.1]
      exact ht
  · rw [cacheGet_hit cache a i r v hcase] at h
    simp only [Prod.mk.injEq, Except.ok.injEq] at h
    rw [← h.1]
    exact hwf (a, v) (cacheLookup_mem cache a v hcase)

theorem cacheGet_preserves_WF (cache : Cache) (a : String) (i : Nat)
    (r : String → Nat → NftType) (hwf : cacheWF cache) :
    cacheWF (cacheGet cache a i r).2.1 := by
  rcases hcase : cacheLookup cache a with _ | v
  · by_cases ht : r a i = NftType.UNKNOWN
    · rw [cacheGet_miss_unknown cache a i r hcase ht]
      exact hwf
    · rw [cacheGet_miss_known cache a i r hcase ht]
      intro p hp
      rcases mem_cacheInsert cache a _ p hp with h | h
      · rw [h]
        exact ht
      · exact hwf p h
  · rw [cacheGet_hit cache a i r v hcase]
    exact hwf

theorem buildTransferTx_error_shape (contract : Contract) (schema : NftType)
    (tokenIDs : List Nat) (amounts : Option (List Nat)) (owner receiver : String)
    (e : NftError) (hs : schema ≠ NftType.UNKNOWN)
    (h : buildTransferTx contract schema tokenIDs amounts owner receiver = .error e) :
    e = .invalidTransferShape tokenIDs ∨ e = .typeErrorUndefinedIndex := by
  cases schema with
  | ERC721 =>
    simp only [buildTransferTx] at h
    split at h
    · injection h with h1
      exact Or.inl h1.symm
    · simp at h
  | ERC1155 =>
    rcases amounts with _ | amts
    · simp only [buildTransferTx] at h
      split at h
      · simp at h
      · injection h with h1
        exact Or.inr h1.symm
    · simp only [buildTransferTx] at h
      split at h
      · simp at h
      · simp at h
  | UNKNOWN => exact absurd rfl hs

theorem transferNft_resolve_error (cache c₁ : Cache) (req : TransferRequest)
    (chainId : Nat) (pkOrSigner : PkOrSigner) (C : Collaborators) (e : NftError)
    (q : List (String × Nat))
    (hresolve : cacheGet cache req.contractAddress chainId C.getNftType =
      (.error e, c₁, q)) :
    transferNft cache req chainId pkOrSigner C =
      { result := .error (.nft e), cache := c₁, registryCalls := q
        prepareCalls := [], sendCalls := [], builtTx := none } := by
  unfold transferNft
  rw [hresolve]

theorem transferNft_build_error (cache c₁ : Cache) (req : TransferRequest)
    (chainId : Nat) (pkOrSigner : PkOrSigner) (C : Collaborators) (info : NftInfo)
    (q : List (String × Nat)) (e : NftError)
    (hresolve : cacheGet cache req.contractAddress chainId C.getNftType =
      (.ok info, c₁, q))
    (hbuild : buildTransferTx info.contract info.schema req.tokenIDs req.amounts
      (getWallet pkOrSigner chainId C.addrOfKey).address req.receiver = .error e) :
    transferNft cache req chainId pkOrSigner C =
      { result := .error (.nft e), cache := c₁, registryCalls := q
        prepareCalls := [], sendCalls := [], builtTx := none } := by
  unfold transferNft
  rw [hresolve]
  dsimp only
  rw [hbuild]

theorem transferNft_build_ok (cache c₁ : Cache) (req : TransferRequest)
    (chainId : Nat) (pkOrSigner : PkOrSigner) (C : Collaborators) (info : NftInfo)
    (q : List (String × Nat)) (tx : PopulatedTransaction)
    (hresolve : cacheGet cache req.contractAddress chainId C.getNftType =
      (.ok info, c₁, q))
    (hbuild : buildTransferTx info.contract info.schema req.tokenIDs req.amounts
      (getWallet pkOrSigner chainId C.addrOfKey).address req.receiver = .ok tx) :
    transferNft cache req chainId pkOrSigner C =
      prepareAndSend c₁ q (getWallet pkOrSigner chainId C.addrOfKey) tx chainId C := by
  unfold transferNft
  rw [hresolve]
  dsimp only
  rw [hbuild]

/-- Concrete collaborators for witnesses: the registry classifies `"0x721"` as
ERC721, `"0xABC"` and `"0x1155"` as ERC1155, anything else as unknown. -/
def testCollab : Collaborators :=
  { getNftType := fun a _ =>
      if a = "0x721" then NftType.ERC721
      else if a = "0xABC" ∨ a = "0x1155" then NftType.ERC1155
      else NftType.UNKNOWN
    addrOfKey := fun _ => "0xOWNER"
    prepareTransaction := fun t _ => .ok { base := t, nonce := 0, gasPrice := 0 }
    sendTransaction := fun _ _ => .ok "0xHASH" }

/-- A cached ERC1155 binding for `"0xABC"`. -/
def info1155ABC : NftInfo :=
  { contract := { kind := .liqERC1155, address := "0xABC", providerChainId := 1 }
    schema := .ERC1155 }

/-- A cached ERC721 binding for `"0x721"`. -/
def info721 : NftInfo :=
  { contract := { kind := .liqERC721, address := "0x721", providerChainId := 1 }
    schema := .ERC721 }

/-- A cache holding the two test bindings. -/
def testCache : Cache := [("0xABC", info1155ABC), ("0x721", info721)]

/-- C1 (spec §4.2, P4): for a transfer resolved through the cache to a
MultiOwner (ERC1155) binding with `amounts` present, `tokenIDs.length > 1`
builds the batch-transfer call `(owner, receiver, tokenIDs, amounts, "0x")`,
and otherwise the single-transfer call
`(owner, receiver, tokenIDs[0], amounts[0], "0x")`; in both shapes `owner` is
the address of the resolved signer and `receiver` that of the request, and the
empty payload is the canonical `"0x"`. -/
theorem C1_multiowner_batch_vs_single (cache c₁ : Cache) (req : TransferRequest)
    (chainId : Nat) (pkOrSigner : PkOrSigner) (C : Collaborators) (info : NftInfo)
    (q : List (String × Nat)) (amts : List Nat)
    (hresolve : cacheGet cache req.contractAddress chainId C.getNftType =
      (.ok info, c₁, q))
    (hschema : info.schema = NftType.ERC1155)
    (hamounts : req.amounts = some amts) :
    (req.tokenIDs.length > 1 →
      (transferNft cache req chainId pkOrSigner C).builtTx =
        some { toAddr := info.contract.address
               call := .safeBatchTransferFrom
                 (getWallet pkOrSigner chainId C.addrOfKey).address req.receiver
                 req.tokenIDs (some amts) "0x" })
    ∧ (¬ req.tokenIDs.length > 1 →
      (transferNft cache req chainId pkOrSigner C).builtTx =
        some { toAddr := info.contract.address
               call := .safeTransferFrom1155
                 (getWallet pkOrSigner chainId C.addrOfKey).address req.receiver
                 (req.tokenIDs.get? 0) (amts.get? 0) "0x" }) := by
  constructor
  · intro hlen
    have hbuild : buildTransferTx info.contract info.schema req.tokenIDs req.amounts
        (getWallet pkOrSigner chainId C.addrOfKey).address req.receiver =
        .ok { toAddr := info.contract.address
              call := .safeBatchTransferFrom
                (getWallet pkOrSigner chainId C.addrOfKey).address req.receiver
                req.tokenIDs (some amts) "0x" } := by
      rw [hschema, hamounts]
      simp [buildTransferTx, hlen]
    rw [transferNft_build_ok cache c₁ req chainId pkOrSigner C info q _ hresolve hbuild]
    exact prepareAndSend_builtTx c₁ q (getWallet pkOrSigner chainId C.addrOfKey) _
      chainId C
  · intro hlen
    have hbuild : buildTransferTx info.contract info.schema req.tokenIDs req.amounts
        (getWallet pkOrSigner chainId C.addrOfKey).address req.receiver =
        .ok { toAddr := info.contract.address
              call := .safeTransferFrom1155
                (getWallet pkOrSigner chainId C.addrOfKey).address req.receiver
                (req.tokenIDs.get? 0) (amts.get? 0) "0x" } := by
      rw [hschema, hamounts]
      simp [buildTransferTx, hlen]
    rw [transferNft_build_ok cache c₁ req chainId pkOrSigner C info q _ hresolve hbuild]
    exact prepareAndSend_builtTx c₁ q (getWallet pkOrSigner chainId C.addrOfKey) _
      chainId C

/-- Witness for C1 at `tokenIDs = [7, 8], amounts = [3, 1]` (batch) and
`tokenIDs = [7], amounts = [3]` (single). -/
theorem C1_witness :
    (transferNft testCache
      { contractAddress := "0xABC", receiver := "0xDEF"
        tokenIDs := [7, 8], amounts := some [3, 1] }
      1 (.pk "k") testCollab).builtTx =
      some { toAddr := "0xABC"
             call := .safeBatchTransferFrom "0xOWNER" "0xDEF" [7, 8] (some [3, 1]) "0x" }
    ∧ (transferNft testCache
      { contractAddress := "0xABC", receiver := "0xDEF"
        tokenIDs := [7], amounts := some [3] }
      1 (.pk "k") testCollab).builtTx =
      some { toAddr := "0xABC"
             call := .safeTransferFrom1155 "0xOWNER" "0xDEF" (some 7) (some 3) "0x" } := by
  constructor
  · exact (C1_multiowner_batch_vs_single testCache testCache
      { contractAddress := "0xABC", receiver := "0xDEF"
        tokenIDs := [7, 8], amounts := some [3, 1] }
      1 (.pk "k") testCollab info1155ABC [] [3, 1]
      (by rfl) (by rfl) (by rfl)).1 (by decide)
  · exact (C1_multiowner_batch_vs_single testCache testCache
      { contractAddress := "0xABC", receiver := "0xDEF"
        tokenIDs := [7], amounts := some [3] }
      1 (.pk "k") testCollab info1155ABC [] [3]
      (by rfl) (by rfl) (by rfl)).2 (by decide)

/-- C2 (spec §4.2, P3): a transfer resolved to a SingleOwner (ERC721) binding
with `tokenIDs.length ≠ 1` (in particular lengths 0, 2 and 5) fails with the
invalid-transfer-shape error, whose message carries the joined offending id
list, and makes no call to the transaction-preparation collaborator (nor any
send). -/
theorem C2_singleowner_arity (cache c₁ : Cache) (req : TransferRequest)
    (chainId : Nat) (pkOrSigner : PkOrSigner) (C : Collaborators) (info : NftInfo)
    (q : List (String × Nat))
    (hresolve : cacheGet cache req.contractAddress chainId C.getNftType =
      (.ok info, c₁, q))
    (hschema : info.schema = NftType.ERC721)
    (hlen : req.tokenIDs.length ≠ 1) :
    (transferNft cache req chainId pkOrSigner C).result =
      .error (.nft (.invalidTransferShape req.tokenIDs))
    ∧ (transferNft cache req chainId pkOrSigner C).prepareCalls = []
    ∧ (transferNft cache req chainId pkOrSigner C).sendCalls = []
    ∧ NftError.message (.invalidTransferShape req.tokenIDs) =
        "ERC 721 transfer supports exactly 1 tokenID, received " ++
          joinIds req.tokenIDs := by
  have hbuild : buildTransferTx info.contract info.schema req.tokenIDs req.amounts
      (getWallet pkOrSigner chainId C.addrOfKey).address req.receiver =
      .error (.invalidTransferShape req.tokenIDs) := by
    rw [hschema]
    simp [buildTransferTx, hlen]
  rw [transferNft_build_error cache c₁ req chainId pkOrSigner C info q _
    hresolve hbuild]
  exact ⟨rfl, rfl, rfl, rfl⟩

/-- Witness for C2 at `tokenIDs = [1, 2]` against the cached ERC721 binding. -/
theorem C2_witness :
    (transferNft testCache
      { contractAddress := "0x721", receiver := "0xDEF"
        tokenIDs := [1, 2], amounts := none }
      1 (.pk "k") testCollab).result =
      .error (.nft (.invalidTransferShape [1, 2]))
    ∧ (transferNft testCache
      { contractAddress := "0x721", receiver := "0xDEF"
        tokenIDs := [1, 2], amounts := none }
      1 (.pk "k") testCollab).prepareCalls = []
    ∧ NftError.message (.invalidTransferShape [1, 2]) =
        "ERC 721 transfer supports exactly 1 tokenID, received 1,2" := by
  have h := C2_singleowner_arity testCache testCache
    { contractAddress := "0x721", receiver := "0xDEF"
      tokenIDs := [1, 2], amounts := none }
    1 (.pk "k") testCollab info721 [] (by rfl) (by rfl) (by decide)
  exact ⟨h.1, h.2.1, by decide⟩

/-- C3 (P1): when a first resolution of an address succeeded, a second
resolution with the same chain id returns the same binding, leaves the cache
unchanged, and performs no schema-detection query. -/
theorem C3_cache_idempotent (cache c₁ : Cache) (a : String) (i : Nat)
    (r : String → Nat → NftType) (info : NftInfo) (q : List (String × Nat))
    (h : cacheGet cache a i r = (.ok info, c₁, q)) :
    cacheGet c₁ a i r = (.ok info, c₁, []) :=
  cacheGet_hit c₁ a i r info (cacheGet_ok_lookup cache c₁ a i r info q h)

/-- Witness for C3: resolving `"0xABC"` on the empty cache succeeds and the
second resolution returns the same binding with no registry query. -/
theorem C3_witness :
    cacheGet [("0xABC", detectedInfo "0xABC" 1 NftType.ERC1155)] "0xABC" 1
      testCollab.getNftType =
      (.ok (detectedInfo "0xABC" 1 NftType.ERC1155),
       [("0xABC", detectedInfo "0xABC" 1 NftType.ERC1155)], []) :=
  C3_cache_idempotent [] [("0xABC", detectedInfo "0xABC" 1 NftType.ERC1155)]
    "0xABC" 1 testCollab.getNftType (detectedInfo "0xABC" 1 NftType.ERC1155)
    [("0xABC", 1)] (by rfl)

/-- C4 (P5): resolving an uncached address whose detected schema is Unknown
fails with `NotAnNftContract(address)` and leaves the cache unchanged;
moreover, any resolution at all that changes the cache returned the freshly
detected binding of a successful (non-Unknown) detection, so the cache is only
ever written after a successful schema detection. -/
theorem C4_unknown_contract_rejected (cache : Cache) (a : String) (i : Nat)
    (r : String → Nat → NftType)
    (hm : cacheLookup cache a = none) (hu : r a i = NftType.UNKNOWN) :
    cacheGet cache a i r = (.error (.notAnNftContract a), cache, [(a, i)])
    ∧ (∀ (c c' : Cache) (a' : String) (i' : Nat) (r' : String → Nat → NftType)
        (res : Except NftError NftInfo) (q : List (String × Nat)),
        cacheGet c a' i' r' = (res, c', q) → c' ≠ c →
        res = .ok (detectedInfo a' i' (r' a' i')) ∧ r' a' i' ≠ NftType.UNKNOWN) := by
  refine ⟨cacheGet_miss_unknown cache a i r hm hu, ?_⟩
  intro c c' a' i' r' res q h hne
  rcases hcase : cacheLookup c a' with _ | v
  · by_cases ht : r' a' i' = NftType.UNKNOWN
    · rw [cacheGet_miss_unknown c a' i' r' hcase ht] at h
      simp only [Prod.mk.injEq] at h
      exact absurd h.2.1.symm hne
    · rw [cacheGet_miss_known c a' i' r' hcase ht] at h
      simp only [Prod.mk.injEq] at h
      exact ⟨h.1.symm, ht⟩
  · rw [cacheGet_hit c a' i' r' v hcase] at h
    simp only [Prod.mk.injEq] at h
    exact absurd h.2.1.symm hne

/-- Witness for C4 at the unknown address `"0xZZZ"`. -/
theorem C4_witness :
    cacheGet testCache "0xZZZ" 1 testCollab.getNftType =
      (.error (.notAnNftContract "0xZZZ"), testCache, [("0xZZZ", 1)]) :=
  (C4_unknown_contract_rejected testCache "0xZZZ" 1 testCollab.getNftType
    (by rfl) (by rfl)).1

/-- C5 (P2, §4.2 guarantee): the schema dispatch is exhaustive and fails
loudly: every successfully built transaction is one of the three transfer call
shapes (never an empty / no-op transaction), and any schema other than the two
supported ones is rejected with `UnsupportedSchema` carrying that schema
value. -/
theorem C5_schema_dispatch_exhaustive (contract : Contract) (schema : NftType)
    (tokenIDs : List Nat) (amounts : Option (List Nat)) (owner receiver : String) :
    (∀ tx, buildTransferTx contract schema tokenIDs amounts owner receiver = .ok tx →
      isTransferShape tx.call = true)
    ∧ (schema ≠ NftType.ERC721 → schema ≠ NftType.ERC1155 →
      buildTransferTx contract schema tokenIDs amounts owner receiver =
        .error (.unsupportedSchema schema)) := by
  constructor
  · intro tx h
    cases schema with
    | ERC721 =>
      simp only [buildTransferTx] at h
      split at h
      · simp at h
      · injection h with h1
        rw [← h1]
        rfl
    | ERC1155 =>
      rcases amounts with _ | amts
      · simp only [buildTransferTx] at h
        split at h
        · injection h with h1
          rw [← h1]
          rfl
        · simp at h
      · simp only [buildTransferTx] at h
        split at h
        · injection h with h1
          rw [← h1]
          rfl
        · injection h with h1
          rw [← h1]
          rfl
    | UNKNOWN =>
      simp only [buildTransferTx] at h
      simp at h
  · intro h1 h2
    cases schema with
    | ERC721 => exact absurd rfl h1
    | ERC1155 => exact absurd rfl h2
    | UNKNOWN => rfl

/-- Witness for C5: a successful ERC721 build yields a transfer shape, and the
UNKNOWN schema is rejected with `UnsupportedSchema UNKNOWN`. -/
theorem C5_witness :
    isTransferShape (CallShape.safeTransferFrom721 "0xOWNER" "0xDEF" (some 1)) = true
    ∧ buildTransferTx { kind := .liqERC721, address := "0xA", providerChainId := 1 }
        NftType.UNKNOWN [1] none "0xOWNER" "0xDEF" =
        .error (.unsupportedSchema NftType.UNKNOWN) := by
  constructor
  · exact (C5_schema_dispatch_exhaustive
      { kind := .liqERC721, address := "0xA", providerChainId := 1 }
      NftType.ERC721 [1] none "0xOWNER" "0xDEF").1
      { toAddr := "0xA", call := .safeTransferFrom721 "0xOWNER" "0xDEF" (some 1) }
      (by rfl)
  · exact (C5_schema_dispatch_exhaustive
      { kind := .liqERC721, address := "0xA", providerChainId := 1 }
      NftType.UNKNOWN [1] none "0xOWNER" "0xDEF").2 (by decide) (by decide)

/-- C6 (§4.1): the cache is keyed by contract address alone: an address already
cached is returned as-is for any chain id, with no schema-registry query; the
chain id of the original resolution is trusted. -/
theorem C6_cache_keyed_by_address_only (cache : Cache) (a : String) (info : NftInfo)
    (h : cacheLookup cache a = some info) (i : Nat) (r : String → Nat → NftType) :
    cacheGet cache a i r = (.ok info, cache, []) :=
  cacheGet_hit cache a i r info h

/-- Witness for C6: `"0xABC"` was cached under chain id 1; resolving it with
chain id 99, against a registry that would call everything unknown, still
returns the cached binding without any query. -/
theorem C6_witness :
    cacheGet testCache "0xABC" 99 (fun _ _ => NftType.UNKNOWN) =
      (.ok info1155ABC, testCache, []) :=
  C6_cache_keyed_by_address_only testCache "0xABC" info1155ABC (by rfl) 99
    (fun _ _ => NftType.UNKNOWN)

/-- C7 (§4.3): the mint operations never read or write the cache: the cache
after a mint equals the cache before, no schema-detection query is made, and
the populated transaction targets a binding constructed fresh against the
`contractAddress` of the request. -/
theorem C7_mint_bypasses_cache (cache : Cache) (req721 : MintERC721Request)
    (req1155 : MintERC1155Request) (chainId : Nat) (pkOrSigner : PkOrSigner)
    (C : Collaborators) :
    (mintERC721Token cache req721 chainId pkOrSigner C).cache = cache
    ∧ (mintERC721Token cache req721 chainId pkOrSigner C).registryCalls = []
    ∧ (mintERC721Token cache req721 chainId pkOrSigner C).builtTx =
        some { toAddr := req721.contractAddress
               call := .safeMint req721.recipient req721.uri }
    ∧ (mintERC1155Token cache req1155 chainId pkOrSigner C).cache = cache
    ∧ (mintERC1155Token cache req1155 chainId pkOrSigner C).registryCalls = []
    ∧ (mintERC1155Token cache req1155 chainId pkOrSigner C).builtTx =
        some { toAddr := req1155.contractAddress
               call := .mint1155 req1155.recipient req1155.id req1155.amount "0x" } := by
  unfold mintERC721Token mintERC1155Token
  dsimp only
  exact ⟨prepareAndSend_cache _ _ _ _ _ _, prepareAndSend_registryCalls _ _ _ _ _ _,
    prepareAndSend_builtTx _ _ _ _ _ _, prepareAndSend_cache _ _ _ _ _ _,
    prepareAndSend_registryCalls _ _ _ _ _ _, prepareAndSend_builtTx _ _ _ _ _ _⟩

/-- Collaborators whose preparer rejects everything. -/
def prepFailCollab : Collaborators :=
  { getNftType := fun _ _ => NftType.UNKNOWN
    addrOfKey := fun _ => "0xOWNER"
    prepareTransaction := fun _ _ => .error "simulation revert"
    sendTransaction := fun _ _ => .ok "0xHASH" }

/-- Collaborators whose preparer succeeds and whose broadcast fails. -/
def sendFailCollab : Collaborators :=
  { getNftType := fun _ _ => NftType.UNKNOWN
    addrOfKey := fun _ => "0xOWNER"
    prepareTransaction := fun t _ => .ok { base := t, nonce := 0, gasPrice := 0 }
    sendTransaction := fun _ _ => .error "boom" }

/-- Collaborators whose preparer rejects with the same error value
`sendFailCollab` broadcasts fail with. -/
def prepFailBoomCollab : Collaborators :=
  { getNftType := fun _ _ => NftType.UNKNOWN
    addrOfKey := fun _ => "0xOWNER"
    prepareTransaction := fun _ _ => .error "boom"
    sendTransaction := fun _ _ => .ok "0xHASH" }

/-- Counterexample to C8 as stated: the source rethrows collaborator
rejections unchanged, with no wrapping or tagging, so the two failure sources
are NOT surfaced as distinct, inspectable error values.  Here one mint fails
at preparation (no send is ever attempted) and the other fails at broadcast
(a send was attempted), both with the collaborator error value `"boom"` — and
the caller receives the very same error value from both runs. -/
theorem C8_counterexample :
    (mintERC721Token [] { contractAddress := "0xA", recipient := "0xR", uri := "u" }
      1 (.pk "k") prepFailBoomCollab).sendCalls = []
    ∧ (mintERC721Token [] { contractAddress := "0xA", recipient := "0xR", uri := "u" }
      1 (.pk "k") sendFailCollab).sendCalls ≠ []
    ∧ (mintERC721Token [] { contractAddress := "0xA", recipient := "0xR", uri := "u" }
      1 (.pk "k") prepFailBoomCollab).result =
      (mintERC721Token [] { contractAddress := "0xA", recipient := "0xR", uri := "u" }
        1 (.pk "k") sendFailCollab).result := by
  refine ⟨rfl, ?_, rfl⟩
  intro h
  simp [mintERC721Token, prepareAndSend, sendFailCollab] at h

/-- C8 (amended, §4.3, §7): for both mint variants, a rejection from the
preparation collaborator is surfaced to the caller as that propagated error
value with no broadcast attempted, and a signer/broadcast failure is surfaced
as that propagated error value; the errors pass through unchanged (no
wrapping), so the caller can tell the two failure sources apart exactly when
the collaborators themselves fail with different error values. -/
theorem C8_mint_failure_propagated (cache₁ cache₂ : Cache)
    (req721 : MintERC721Request) (req1155 : MintERC1155Request) (chainId : Nat)
    (pkOrSigner : PkOrSigner) (C₁ C₂ : Collaborators) (c₁ c₂ : String)
    (mk : TxRequest → PreparedTx)
    (h1 : C₁.prepareTransaction = fun _ _ => .error c₁)
    (h2 : C₂.prepareTransaction = fun t _ => .ok (mk t))
    (h3 : C₂.sendTransaction = fun _ _ => .error c₂) :
    (mintERC721Token cache₁ req721 chainId pkOrSigner C₁).result =
      .error (.propagated c₁)
    ∧ (mintERC721Token cache₁ req721 chainId pkOrSigner C₁).sendCalls = []
    ∧ (mintERC1155Token cache₁ req1155 chainId pkOrSigner C₁).result =
      .error (.propagated c₁)
    ∧ (mintERC1155Token cache₁ req1155 chainId pkOrSigner C₁).sendCalls = []
    ∧ (mintERC721Token cache₂ req721 chainId pkOrSigner C₂).result =
      .error (.propagated c₂)
    ∧ (mintERC1155Token cache₂ req1155 chainId pkOrSigner C₂).result =
      .error (.propagated c₂)
    ∧ (c₁ ≠ c₂ → OpError.propagated c₁ ≠ OpError.propagated c₂) := by
  unfold mintERC721Token mintERC1155Token prepareAndSend
  rw [h1, h2, h3]
  dsimp only
  refine ⟨rfl, rfl, rfl, rfl, rfl, rfl, fun hne hc => hne ?_⟩
  injection hc

/-- Witness for the amended C8: concrete mints against a rejecting preparer
and a failing broadcaster, whose differing error values stay apart. -/
theorem C8_witness :
    (mintERC721Token [] { contractAddress := "0xA", recipient := "0xR", uri := "u" }
      1 (.pk "k") prepFailCollab).result = .error (.propagated "simulation revert")
    ∧ (mintERC1155Token []
      { contractAddress := "0xA", recipient := "0xR", id := 1, amount := 2 }
      1 (.pk "k") sendFailCollab).result = .error (.propagated "boom")
    ∧ OpError.propagated "simulation revert" ≠ OpError.propagated "boom" := by
  have h := C8_mint_failure_propagated [] []
    { contractAddress := "0xA", recipient := "0xR", uri := "u" }
    { contractAddress := "0xA", recipient := "0xR", id := 1, amount := 2 }
    1 (.pk "k") prepFailCollab sendFailCollab "simulation revert" "boom"
    (fun t => { base := t, nonce := 0, gasPrice := 0 }) rfl rfl rfl
  exact ⟨h.1, h.2.2.2.2.2.1, h.2.2.2.2.2.2 (by decide)⟩

/-- C9 (implicit invariant): starting from a well-formed cache (one whose
entries all have a known schema, as the empty initial cache does), resolution
preserves well-formedness, every binding returned from the cache has a known
schema, and consequently a transfer routed through the cache can never fail
with the `UnsupportedSchema` default branch. -/
theorem C9_unsupported_branch_unreachable (cache : Cache) (hwf : cacheWF cache) :
    (∀ (a : String) (i : Nat) (r : String → Nat → NftType),
      cacheWF (cacheGet cache a i r).2.1)
    ∧ (∀ (a : String) (i : Nat) (r : String → Nat → NftType) (info : NftInfo)
        (c' : Cache) (q : List (String × Nat)),
        cacheGet cache a i r = (.ok info, c', q) → info.schema ≠ NftType.UNKNOWN)
    ∧ (∀ (req : TransferRequest) (chainId : Nat) (pkOrSigner : PkOrSigner)
        (C : Collaborators) (s : NftType),
        (transferNft cache req chainId pkOrSigner C).result ≠
          .error (.nft (.unsupportedSchema s))) := by
  refine ⟨fun a i r => cacheGet_preserves_WF cache a i r hwf,
    fun a i r info c' q h => cacheGet_ok_schema cache c' a i r info q hwf h, ?_⟩
  intro req chainId pkOrSigner C s
  rcases hc : cacheGet cache req.contractAddress chainId C.getNftType with ⟨res, c', q⟩
  cases res with
  | error e =>
    rw [transferNft_resolve_error cache c' req chainId pkOrSigner C e q hc]
    have hshape := cacheGet_error_shape cache c' req.contractAddress chainId
      C.getNftType e q hc
    rw [hshape.1]
    simp
  | ok info =>
    have hschema := cacheGet_ok_schema cache c' req.contractAddress chainId
      C.getNftType info q hwf hc
    rcases hb : buildTransferTx info.contract info.schema req.tokenIDs req.amounts
        (getWallet pkOrSigner chainId C.addrOfKey).address req.receiver with e | tx
    · rw [transferNft_build_error cache c' req chainId pkOrSigner C info q e hc hb]
      rcases buildTransferTx_error_shape info.contract info.schema req.tokenIDs
        req.amounts _ _ e hschema hb with h | h <;> rw [h] <;> simp
    · rw [transferNft_build_ok cache c' req chainId pkOrSigner C info q tx hc hb]
      exact prepareAndSend_result_not_nft c' q _ tx chainId C _

/-- Witness for C9: a concrete transfer through the (well-formed) test cache
does not produce the unsupported-schema error. -/
theorem C9_witness :
    (transferNft testCache
      { contractAddress := "0xABC", receiver := "0xDEF"
        tokenIDs := [7], amounts := some [3] }
      1 (.pk "k") testCollab).result ≠
      .error (.nft (.unsupportedSchema NftType.UNKNOWN)) :=
  (C9_unsupported_branch_unreachable testCache
    (by simp [cacheWF, testCache, info1155ABC, info721])).2.2
    { contractAddress := "0xABC", receiver := "0xDEF"
      tokenIDs := [7], amounts := some [3] }
    1 (.pk "k") testCollab NftType.UNKNOWN

/-- C10 (implicit): the MultiOwner branch performs no validation of `amounts`:
a batch with `amounts` shorter than `tokenIDs`, a batch with `amounts` absent,
and a single-transfer with `tokenIDs` empty (and `amounts` an empty array) all
build without any shape error, forwarding the unchecked `amounts` and the
unguarded `tokenIDs[0]` / `amounts[0]` element reads (`undefined` when out of
range). -/
theorem C10_no_amounts_validation (contract : Contract) (owner receiver : String) :
    buildTransferTx contract NftType.ERC1155 [7, 8] (some [3]) owner receiver =
      .ok { toAddr := contract.address
            call := .safeBatchTransferFrom owner receiver [7, 8] (some [3]) "0x" }
    ∧ buildTransferTx contract NftType.ERC1155 [7, 8] none owner receiver =
      .ok { toAddr := contract.address
            call := .safeBatchTransferFrom owner receiver [7, 8] none "0x" }
    ∧ buildTransferTx contract NftType.ERC1155 [] (some []) owner receiver =
      .ok { toAddr := contract.address
            call := .safeTransferFrom1155 owner receiver none none "0x" } := by
  refine ⟨?_, ?_, ?_⟩ <;> rfl
